import Mathlib

/-!
Verification of the streamtape-api client library (`src/streamtape/client.py`,
`src/streamtape/exceptions.py`).

The development shallowly embeds the client: JSON-like values, the response
envelope `{status, msg, result}`, the `StreamtapeError` domain error, the
shared request primitive `_request`, the per-endpoint parameter assembly
(including the Python `or`-based credential fallback), the post-processing of
account-info and remote-upload-status results, the chunked SHA-256 file
hashing of `_calculate_sha256`, and an event-trace model of the two-phase
`upload_file` workflow.
-/

set_option autoImplicit false

namespace Streamtape

/-- Structured timestamp produced by `datetime.strptime` (the fields the
default format `%Y-%m-%d %H:%M:%S` can set, with CPython's defaults). -/
structure DateTime where
  year : Nat
  month : Nat
  day : Nat
  hour : Nat
  minute : Nat
  second : Nat
deriving DecidableEq, Repr

/-- JSON-like values: decoded response bodies, parameter values (Python `None`
is `null`), and post-processed fields (`dt` for parsed timestamps). -/
inductive Value where
  | null : Value
  | bool (b : Bool) : Value
  | int (n : Int) : Value
  | str (s : String) : Value
  | dt (d : DateTime) : Value
  | obj (kvs : List (String × Value)) : Value
deriving Repr

/-- Exceptions the embedded code can raise: `os` for `OSError` from file
access, `transport` for httpx transport-level failures (connection error or
`raise_for_status`), `domain` for `StreamtapeError status_code message`
(src/streamtape/exceptions.py), and the Python runtime errors the
post-processing can hit. -/
inductive Exc where
  | os : Exc
  | transport : Exc
  | domain (status_code : Int) (message : String) : Exc
  | keyError (k : String) : Exc
  | valueError : Exc
  | typeError : Exc
deriving DecidableEq, Repr

/-- Decoded API envelope `{status, msg, result}`. -/
structure Envelope where
  status : Int
  msg : String
  result : Value
deriving Repr

/-- An outgoing HTTP request as handed to the transport: verb, target URL,
query parameters (in assembly order, values may be `null` for Python `None`),
and multipart file attachments (field name paired with the source path). -/
structure HttpReq where
  method : String
  url : String
  params : List (String × Value)
  files : List (String × String)
deriving Repr

/-- Client configuration held by `StreamtapeAPI.__init__`: optional default
credentials, the `strptime` format, and the hashing chunk size. The base URL
is the fixed class constant, and the timeout only parametrizes the transport,
so neither appears in any verified property. -/
structure Config where
  login : Option String
  key : Option String
  datetime_format : String
  chunk_size : Nat

/-- Fixed base URL, class constant `StreamtapeAPI.BASE_URL`. -/
def BASE_URL : String := "https://api.streamtape.com"

/-- Default `datetime_format`, class constant `StreamtapeAPI.DATETIME_FORMAT`. -/
def DATETIME_FORMAT : String := "%Y-%m-%d %H:%M:%S"

/-- Default `chunk_size`, class constant `StreamtapeAPI.CHUNK_SIZE`. -/
def CHUNK_SIZE : Nat := 4096

/-! ## Dictionary model

Python `dict` operations used by the client, on association lists. Python
dicts have unique keys; theorems that need uniqueness assume `Nodup` on the
key list. -/

/-- Dictionary read `d[k]` (first binding wins). -/
def alist_get (k : String) : List (String × Value) → Option Value
  | [] => none
  | (k', v) :: rest => if k' = k then some v else alist_get k rest

/-- Dictionary write `d[k] = v`: replace the binding in place when the key is
present, append it otherwise (Python insertion-order semantics). -/
def dictSet (k : String) (v : Value) : List (String × Value) → List (String × Value)
  | [] => [(k, v)]
  | (k', v') :: rest => if k' = k then (k, v) :: rest else (k', v') :: dictSet k v rest

/-- Dictionary removal `d.pop(k)`: the removed value and the remaining
bindings, or `none` (a `KeyError`) when the key is absent. -/
def dictPop (k : String) : List (String × Value) → Option (Value × List (String × Value))
  | [] => none
  | (k', v) :: rest =>
    if k' = k then
      some (v, rest)
    else
      (dictPop k rest).map fun p => (p.1, (k', v) :: p.2)

/-- Tests whether a value is Python `None`. -/
def Value.isNull : Value → Bool
  | .null => true
  | _ => false

/-- Modelled from the spec: the transport layer (httpx, outside this
repository) "must drop empty/null parameters rather than sending empty
strings" — parameters whose assembled value is Python `None` are omitted from
the request actually sent on the wire. -/
def sentParams (ps : List (String × Value)) : List (String × Value) :=
  ps.filter fun kv => !kv.2.isNull

/-- Value of a named parameter as actually sent (after the transport drops
`None`-valued parameters). -/
def sentLookup (req : HttpReq) (name : String) : Option Value :=
  alist_get name (sentParams req.params)

/-! ## Credential fallback

Every credentialed endpoint builds `"login": login or self.login` and
`"key": key or self.key`. Python `or` takes the second operand when the first
is falsy, and for `Optional[str]` both `None` and `""` are falsy. -/

/-- Python `a or b` on optional strings: `a` wins unless it is `None` or the
empty string. -/
def pyOrStr (a b : Option String) : Option String :=
  match a with
  | some s => if s = "" then b else some s
  | none => b

/-- Parameter value assembled from `explicit or default`, as stored in the
params dict (`None` becomes `null`). -/
def credVal (explicit default : Option String) : Value :=
  match pyOrStr explicit default with
  | some s => .str s
  | none => .null

/-- Optional-string parameter value (for arguments stored without an `or`
fallback, such as `folder`). -/
def optStr : Option String → Value
  | some s => .str s
  | none => .null

/-- Optional-bool parameter value (`httponly`). -/
def optBool : Option Bool → Value
  | some b => .bool b
  | none => .null

/-! ## Request primitive `_request` -/

/-- Target URL computed by `_request`: `url = base_url if base_url else
self.base_url; if endpoint: url += endpoint` (Python truthiness: `None` and
`""` are falsy). -/
def request_url (cfg_base : String) (base_url endpoint : Option String) : String :=
  let url :=
    match base_url with
    | some b => if b = "" then cfg_base else b
    | none => cfg_base
  match endpoint with
  | some e => if e = "" then url else url ++ e
  | none => url

/-- Envelope handling of `_request` after the transport call: a transport
failure propagates; otherwise `status` outside `[200, 300)` raises
`StreamtapeError(status, msg)` and a success returns `result` unchanged. -/
def request_handle (resp : Except Exc Envelope) : Except Exc Value :=
  match resp with
  | .error e => .error e
  | .ok env =>
    if 200 ≤ env.status ∧ env.status < 300 then
      .ok env.result
    else
      .error (.domain env.status env.msg)

/-! ## SHA-256

Executable SHA-256 over byte lists (FIPS 180-4), modelling `hashlib.sha256`.
Words are `Nat` reduced modulo `2 ^ 32` wherever overflow matters. -/

/-- Word modulus `2 ^ 32`. -/
def M32 : Nat := 4294967296

/-- Right rotation of a 32-bit word. -/
def rotr32 (n x : Nat) : Nat :=
  ((x >>> n) ||| (x <<< (32 - n))) % M32

/-- Choice function `Ch(x, y, z)`. -/
def sha_ch (x y z : Nat) : Nat :=
  (x &&& y) ^^^ ((x ^^^ (M32 - 1)) &&& z)

/-- Majority function `Maj(x, y, z)`. -/
def sha_maj (x y z : Nat) : Nat :=
  ((x &&& y) ^^^ (x &&& z)) ^^^ (y &&& z)

/-- Big sigma-0. -/
def bigSigma0 (x : Nat) : Nat :=
  (rotr32 2 x ^^^ rotr32 13 x) ^^^ rotr32 22 x

/-- Big sigma-1. -/
def bigSigma1 (x : Nat) : Nat :=
  (rotr32 6 x ^^^ rotr32 11 x) ^^^ rotr32 25 x

/-- Small sigma-0. -/
def smallSigma0 (x : Nat) : Nat :=
  (rotr32 7 x ^^^ rotr32 18 x) ^^^ (x >>> 3)

/-- Small sigma-1. -/
def smallSigma1 (x : Nat) : Nat :=
  (rotr32 17 x ^^^ rotr32 19 x) ^^^ (x >>> 10)

/-- Round constants `K` of FIPS 180-4 (fractional parts of the cube roots of
the first sixty-four primes), written in decimal. -/
def shaK : List Nat :=
  [1116352408, 1899447441, 3049323471, 3921009573, 961987163,
   1508970993, 2453635748, 2870763221, 3624381080, 310598401,
   607225278, 1426881987, 1925078388, 2162078206, 2614888103,
   3248222580, 3835390401, 4022224774, 264347078, 604807628,
   770255983, 1249150122, 1555081692, 1996064986, 2554220882,
   2821834349, 2952996808, 3210313671, 3336571891, 3584528711,
   113926993, 338241895, 666307205, 773529912, 1294757372,
   1396182291, 1695183700, 1986661051, 2177026350, 2456956037,
   2730485921, 2820302411, 3259730800, 3345764771, 3516065817,
   3600352804, 4094571909, 275423344, 430227734, 506948616,
   659060556, 883997877, 958139571, 1322822218, 1537002063,
   1747873779, 1955562222, 2024104815, 2227730452, 2361852424,
   2428436474, 2756734187, 3204031479, 3329325298]

/-- Working state of the compression function. -/
structure Hv where
  a : Nat
  b : Nat
  c : Nat
  d : Nat
  e : Nat
  f : Nat
  g : Nat
  h : Nat
deriving Repr

/-- Initial hash value `H0` of FIPS 180-4 (fractional parts of the square
roots of the first eight primes), written in decimal. -/
def shaH0 : Hv :=
  ⟨1779033703, 3144134277, 1013904242, 2773480762,
   1359893119, 2600822924, 528734635, 1541459225⟩

/-- Eight-byte big-endian encoding of the bit length. -/
def lenBytes (n : Nat) : List Nat :=
  [(n >>> 56) % 256, (n >>> 48) % 256, (n >>> 40) % 256, (n >>> 32) % 256,
   (n >>> 24) % 256, (n >>> 16) % 256, (n >>> 8) % 256, n % 256]

/-- Merkle–Damgård padding: `0x80`, zeros to 56 mod 64, then the bit length. -/
def padMessage (msg : List Nat) : List Nat :=
  let l := msg.length
  let z := (64 - ((l + 9) % 64)) % 64
  msg ++ 128 :: (List.replicate z 0 ++ lenBytes (8 * l))

/-- Big-endian 32-bit words from bytes (groups of four; a ragged tail is
dropped, which never occurs on padded input). -/
def bytesToWords : List Nat → List Nat
  | b0 :: b1 :: b2 :: b3 :: rest =>
    (((b0 % 256) <<< 24) + ((b1 % 256) <<< 16) + ((b2 % 256) <<< 8) + (b3 % 256))
      :: bytesToWords rest
  | _ => []

/-- Message-schedule extension on a reversed word list: prepend
`σ1(W[t-2]) + W[t-7] + σ0(W[t-15]) + W[t-16]` the given number of times. -/
def extendSchedule : Nat → List Nat → List Nat
  | 0, w => w
  | n + 1, w =>
    let wNew :=
      (smallSigma1 (w.getD 1 0) + w.getD 6 0 + smallSigma0 (w.getD 14 0) + w.getD 15 0) % M32
    extendSchedule n (wNew :: w)

/-- Sixty-four-entry message schedule of one 64-byte block. -/
def schedule (block : List Nat) : List Nat :=
  (extendSchedule 48 (bytesToWords block).reverse).reverse

/-- One compression round with round constant `k` and schedule word `w`. -/
def shaRound (s : Hv) (k w : Nat) : Hv :=
  let t1 := (s.h + bigSigma1 s.e + sha_ch s.e s.f s.g + k + w) % M32
  let t2 := (bigSigma0 s.a + sha_maj s.a s.b s.c) % M32
  ⟨(t1 + t2) % M32, s.a, s.b, s.c, (s.d + t1) % M32, s.e, s.f, s.g⟩

/-- Fold of the 64 compression rounds over paired constants and schedule. -/
def compressFold (s : Hv) : List (Nat × Nat) → Hv
  | [] => s
  | (k, w) :: rest => compressFold (shaRound s k w) rest

/-- Process one 64-byte block: compress and add into the running hash. -/
def processBlock (h : Hv) (block : List Nat) : Hv :=
  let s := compressFold h (shaK.zip (schedule block))
  ⟨(h.a + s.a) % M32, (h.b + s.b) % M32, (h.c + s.c) % M32, (h.d + s.d) % M32,
   (h.e + s.e) % M32, (h.f + s.f) % M32, (h.g + s.g) % M32, (h.h + s.h) % M32⟩

/-- Fuel-bounded splitting into blocks of the given size (fuel bounds the
number of blocks; `length` is always enough fuel). -/
def chunksFuel (size : Nat) : Nat → List Nat → List (List Nat)
  | 0, _ => []
  | _, [] => []
  | fuel + 1, bs => bs.take size :: chunksFuel size fuel (bs.drop size)

/-- SHA-256 state words of a whole message. -/
def sha256Words (msg : List Nat) : List Nat :=
  let padded := padMessage msg
  let hv := (chunksFuel 64 padded.length padded).foldl processBlock shaH0
  [hv.a, hv.b, hv.c, hv.d, hv.e, hv.f, hv.g, hv.h]

/-- Lower-case hex digit. -/
def hexDigit (n : Nat) : Char :=
  if n < 10 then Char.ofNat (48 + n) else Char.ofNat (87 + n)

/-- Eight hex characters of one 32-bit word, most significant first. -/
def wordToHex (w : Nat) : List Char :=
  [hexDigit ((w >>> 28) % 16), hexDigit ((w >>> 24) % 16),
   hexDigit ((w >>> 20) % 16), hexDigit ((w >>> 16) % 16),
   hexDigit ((w >>> 12) % 16), hexDigit ((w >>> 8) % 16),
   hexDigit ((w >>> 4) % 16), hexDigit (w % 16)]

/-- Hex-encoded SHA-256 digest of a byte list, as `hashlib`'s `hexdigest`
returns it for the whole contents hashed at once. -/
def sha256_hex (msg : List Nat) : String :=
  String.mk ((sha256Words msg).foldr (fun w acc => wordToHex w ++ acc) [])

/-! ## Chunked hashing `_calculate_sha256`

The Python loop reads `chunk_size` bytes at a time and feeds each chunk to the
accumulator until a read returns the empty chunk. `hashlib`'s documented
contract is that consecutive `update` calls are equivalent to a single call on
the concatenation, so the accumulator state is the byte list fed so far. -/

/-- Read loop of `_calculate_sha256`: the chunks produced, in order, by
repeated `f.read(chunk_size)` on the given contents until an empty chunk
(fuel-bounded; `length + 1` is always enough fuel when `chunk_size ≥ 1`, and a
`chunk_size` of `0` reads an empty chunk at once, faithfully to `f.read(0)`). -/
def readLoop (chunk_size : Nat) : Nat → List Nat → List (List Nat)
  | 0, _ => []
  | fuel + 1, bs =>
    let chunk := bs.take chunk_size
    if chunk.isEmpty then [] else chunk :: readLoop chunk_size fuel (bs.drop chunk_size)

/-- Chunked digest of `StreamtapeAPI._calculate_sha256` on file contents read
successfully: feed each chunk of the read loop to the accumulator, then take
the hex digest of everything fed. -/
def calculate_sha256 (chunk_size : Nat) (contents : List Nat) : String :=
  sha256_hex (((readLoop chunk_size (contents.length + 1) contents).foldl (· ++ ·) []))

/-! ## Timestamp parsing `_str_to_datetime`

Model of CPython's `_strptime` (standard library, outside this repository)
restricted to the numeric directives `%Y %m %d %H %M %S` plus literal
characters — enough to cover the client's configured default format
`%Y-%m-%d %H:%M:%S`. Digit fields follow CPython's compiled regular
expressions (`%Y` is exactly four digits; the two-digit alternatives of the
other directives are tried before the one-digit ones; literal whitespace in
the format matches one or more whitespace characters); any unsupported
directive and any trailing unconverted data yield `none` (a `ValueError`). -/

/-- Numeric value of a digit character. -/
def digitVal (c : Char) : Nat := c.toNat - 48

/-- Exactly four digits, as matched by `%Y`. -/
def parse4Digits : List Char → Option (Nat × List Char)
  | c1 :: c2 :: c3 :: c4 :: rest =>
    if c1.isDigit && c2.isDigit && c3.isDigit && c4.isDigit then
      some (((digitVal c1 * 10 + digitVal c2) * 10 + digitVal c3) * 10 + digitVal c4, rest)
    else
      none
  | _ => none

/-- Two digits when the pair satisfies `ok2`, else one digit satisfying `ok1`
(the order CPython's regex alternation tries them in). -/
def parse2or1 (ok2 : Nat → Nat → Bool) (ok1 : Nat → Bool) : List Char → Option (Nat × List Char)
  | c1 :: c2 :: rest =>
    if c1.isDigit && c2.isDigit && ok2 (digitVal c1) (digitVal c2) then
      some (10 * digitVal c1 + digitVal c2, rest)
    else if c1.isDigit && ok1 (digitVal c1) then
      some (digitVal c1, c2 :: rest)
    else
      none
  | [c1] =>
    if c1.isDigit && ok1 (digitVal c1) then some (digitVal c1, []) else none
  | [] => none

/-- Month field `%m`: `1[0-2]|0[1-9]|[1-9]`. -/
def parseMonth : List Char → Option (Nat × List Char) :=
  parse2or1 (fun d1 d2 => decide ((d1 = 1 ∧ d2 ≤ 2) ∨ (d1 = 0 ∧ 1 ≤ d2)))
    (fun d => decide (1 ≤ d))

/-- Day field `%d`: `3[01]|[12]\d|0[1-9]|[1-9]`. -/
def parseDay : List Char → Option (Nat × List Char) :=
  parse2or1 (fun d1 d2 => decide ((d1 = 3 ∧ d2 ≤ 1) ∨ d1 = 1 ∨ d1 = 2 ∨ (d1 = 0 ∧ 1 ≤ d2)))
    (fun d => decide (1 ≤ d))

/-- Hour field `%H`: `2[0-3]|[0-1]\d|\d`. -/
def parseHour : List Char → Option (Nat × List Char) :=
  parse2or1 (fun d1 d2 => decide ((d1 = 2 ∧ d2 ≤ 3) ∨ d1 ≤ 1)) (fun _ => true)

/-- Minute field `%M`: `[0-5]\d|\d`. -/
def parseMinute : List Char → Option (Nat × List Char) :=
  parse2or1 (fun d1 _ => decide (d1 ≤ 5)) (fun _ => true)

/-- Second field `%S`: `6[0-1]|[0-5]\d|\d`. -/
def parseSecond : List Char → Option (Nat × List Char) :=
  parse2or1 (fun d1 d2 => decide ((d1 = 6 ∧ d2 ≤ 1) ∨ d1 ≤ 5)) (fun _ => true)

/-- Format-directed parse: walk the format, consuming the input; update the
accumulated timestamp at each directive; succeed only when both the format
and the input are exhausted together. -/
def runStrptime : List Char → List Char → DateTime → Option DateTime
  | [], [], acc => some acc
  | [], _ :: _, _ => none
  | '%' :: dch :: fmtRest, s, acc =>
    match dch with
    | 'Y' => (parse4Digits s).bind fun p => runStrptime fmtRest p.2 {acc with year := p.1}
    | 'm' => (parseMonth s).bind fun p => runStrptime fmtRest p.2 {acc with month := p.1}
    | 'd' => (parseDay s).bind fun p => runStrptime fmtRest p.2 {acc with day := p.1}
    | 'H' => (parseHour s).bind fun p => runStrptime fmtRest p.2 {acc with hour := p.1}
    | 'M' => (parseMinute s).bind fun p => runStrptime fmtRest p.2 {acc with minute := p.1}
    | 'S' => (parseSecond s).bind fun p => runStrptime fmtRest p.2 {acc with second := p.1}
    | '%' =>
      match s with
      | '%' :: s' => runStrptime fmtRest s' acc
      | _ => none
    | _ => none
  | ['%'], _, _ => none
  | fc :: fmtRest, s, acc =>
    if fc.isWhitespace then
      match s with
      | c :: s' =>
        if c.isWhitespace then runStrptime fmtRest (s'.dropWhile Char.isWhitespace) acc
        else none
      | [] => none
    else
      match s with
      | c :: s' => if c = fc then runStrptime fmtRest s' acc else none
      | [] => none

/-- Model of `datetime.strptime(datetime_string, format)` as used by
`StreamtapeAPI._str_to_datetime`; `none` stands for a raised `ValueError`.
Unset fields keep CPython's defaults (year 1900, month 1, day 1, midnight). -/
def strptime (fmt s : String) : Option DateTime :=
  runStrptime fmt.toList s.toList ⟨1900, 1, 1, 0, 0, 0⟩

/-! ## Endpoint methods

One request builder (the `HttpReq` handed to the transport) and one response
run (the handling of the transport outcome, post-processing included) per
method of `StreamtapeAPI`, in source order. Parameter dictionaries are listed
in the assembly order of the source. -/

/-- Request of `get_account_info`. -/
def get_account_info_req (cfg : Config) (login key : Option String) : HttpReq :=
  { method := "GET"
    url := request_url BASE_URL none (some "/account/info")
    params := [("login", credVal login cfg.login), ("key", credVal key cfg.key)]
    files := [] }

/-- Post-processing of `get_account_info`: `result["api_id"] =
result.pop("apiid")` then `result["signup_at"] =
self._str_to_datetime(result["signup_at"])`, with the Python runtime errors
each step can raise. -/
def get_account_info_post (cfg : Config) : Value → Except Exc Value
  | .obj kvs =>
    match dictPop "apiid" kvs with
    | none => .error (.keyError "apiid")
    | some (apiidVal, kvs1) =>
      let kvs2 := dictSet "api_id" apiidVal kvs1
      match alist_get "signup_at" kvs2 with
      | none => .error (.keyError "signup_at")
      | some (.str s) =>
        match strptime cfg.datetime_format s with
        | some d => .ok (.obj (dictSet "signup_at" (.dt d) kvs2))
        | none => .error .valueError
      | some _ => .error .typeError
  | _ => .error .typeError

/-- Response run of `get_account_info`. -/
def get_account_info_run (cfg : Config) (resp : Except Exc Envelope) : Except Exc Value :=
  (request_handle resp).bind (get_account_info_post cfg)

/-- Request of `get_download_ticket`. -/
def get_download_ticket_req (cfg : Config) (file : String) (login key : Option String) : HttpReq :=
  { method := "GET"
    url := request_url BASE_URL none (some "/file/dlticket")
    params := [("login", credVal login cfg.login), ("key", credVal key cfg.key),
               ("file", .str file)]
    files := [] }

/-- Response run of `get_download_ticket` (pass-through). -/
def get_download_ticket_run (resp : Except Exc Envelope) : Except Exc Value :=
  request_handle resp

/-- Request of `get_download_link` (no credential parameters in the source). -/
def get_download_link_req (file ticket : String) : HttpReq :=
  { method := "GET"
    url := request_url BASE_URL none (some "/file/dl")
    params := [("file", .str file), ("ticket", .str ticket)]
    files := [] }

/-- Response run of `get_download_link` (pass-through). -/
def get_download_link_run (resp : Except Exc Envelope) : Except Exc Value :=
  request_handle resp

/-- Request of `get_file_info`: the identifier list is comma-joined into the
single `file` parameter by `",".join(file)`. -/
def get_file_info_req (cfg : Config) (file : List String) (login key : Option String) : HttpReq :=
  { method := "GET"
    url := request_url BASE_URL none (some "/file/info")
    params := [("login", credVal login cfg.login), ("key", credVal key cfg.key),
               ("file", .str (String.intercalate "," file))]
    files := [] }

/-- Response run of `get_file_info` (pass-through). -/
def get_file_info_run (resp : Except Exc Envelope) : Except Exc Value :=
  request_handle resp

/-- Negotiate request of `upload_file` (GET `/file/ul`), given the digest the
hash phase computed. -/
def upload_file_negotiate_req (cfg : Config) (folder : Option String)
    (httponly : Option Bool) (login key : Option String) (digest : String) : HttpReq :=
  { method := "GET"
    url := request_url BASE_URL none (some "/file/ul")
    params := [("login", credVal login cfg.login), ("key", credVal key cfg.key),
               ("folder", optStr folder), ("sha256", .str digest),
               ("httponly", optBool httponly)]
    files := [] }

/-- Transfer request of `upload_file` (POST to the negotiated URL, the file
attached as multipart field `file1`). -/
def upload_file_transfer_req (negotiated_url file_path : String) : HttpReq :=
  { method := "POST"
    url := request_url BASE_URL (some negotiated_url) none
    params := []
    files := [("file1", file_path)] }

/-- Request of `remote_upload`. -/
def remote_upload_req (cfg : Config) (url : String) (folder : Option String)
    (headers : Option Value) (name : Option String) (login key : Option String) : HttpReq :=
  { method := "GET"
    url := request_url BASE_URL none (some "/remotedl")
    params := [("login", credVal login cfg.login), ("key", credVal key cfg.key),
               ("url", .str url), ("folder", optStr folder),
               ("headers", headers.getD .null), ("name", optStr name)]
    files := [] }

/-- Response run of `remote_upload` (pass-through). -/
def remote_upload_run (resp : Except Exc Envelope) : Except Exc Value :=
  request_handle resp

/-- Request of `remove_remote_upload`: the source issues a GET against the
`/file/info` endpoint with the upload identifier as the `id` parameter. -/
def remove_remote_upload_req (cfg : Config) (upload_id : String) (login key : Option String) : HttpReq :=
  { method := "GET"
    url := request_url BASE_URL none (some "/file/info")
    params := [("login", credVal login cfg.login), ("key", credVal key cfg.key),
               ("id", .str upload_id)]
    files := [] }

/-- Response run of `remove_remote_upload` (pass-through). -/
def remove_remote_upload_run (resp : Except Exc Envelope) : Except Exc Value :=
  request_handle resp

/-- Request of `get_remote_upload_status`. -/
def get_remote_upload_status_req (cfg : Config) (upload_id : String) (login key : Option String) : HttpReq :=
  { method := "GET"
    url := request_url BASE_URL none (some "/remotedl/status")
    params := [("login", credVal login cfg.login), ("key", credVal key cfg.key),
               ("id", .str upload_id)]
    files := [] }

/-- Post-processing of `get_remote_upload_status`: parse `added` and then
`last_update` through `_str_to_datetime`. -/
def get_remote_upload_status_post (cfg : Config) : Value → Except Exc Value
  | .obj kvs =>
    match alist_get "added" kvs with
    | none => .error (.keyError "added")
    | some (.str s1) =>
      match strptime cfg.datetime_format s1 with
      | none => .error .valueError
      | some d1 =>
        let kvs1 := dictSet "added" (.dt d1) kvs
        match alist_get "last_update" kvs1 with
        | none => .error (.keyError "last_update")
        | some (.str s2) =>
          match strptime cfg.datetime_format s2 with
          | none => .error .valueError
          | some d2 => .ok (.obj (dictSet "last_update" (.dt d2) kvs1))
        | some _ => .error .typeError
    | some _ => .error .typeError
  | _ => .error .typeError

/-- Response run of `get_remote_upload_status`. -/
def get_remote_upload_status_run (cfg : Config) (resp : Except Exc Envelope) : Except Exc Value :=
  (request_handle resp).bind (get_remote_upload_status_post cfg)

/-- Request of `get_files_and_folders`. -/
def get_files_and_folders_req (cfg : Config) (folder : Option String) (login key : Option String) : HttpReq :=
  { method := "GET"
    url := request_url BASE_URL none (some "/file/listfolder")
    params := [("login", credVal login cfg.login), ("key", credVal key cfg.key),
               ("folder", optStr folder)]
    files := [] }

/-- Response run of `get_files_and_folders` (pass-through). -/
def get_files_and_folders_run (resp : Except Exc Envelope) : Except Exc Value :=
  request_handle resp

/-- Request of `create_folder`. -/
def create_folder_req (cfg : Config) (name : String) (parent_folder : Option String)
    (login key : Option String) : HttpReq :=
  { method := "GET"
    url := request_url BASE_URL none (some "/file/createfolder")
    params := [("login", credVal login cfg.login), ("key", credVal key cfg.key),
               ("name", .str name), ("pid", optStr parent_folder)]
    files := [] }

/-- Response run of `create_folder` (pass-through). -/
def create_folder_run (resp : Except Exc Envelope) : Except Exc Value :=
  request_handle resp

/-- Request of `rename_folder`. -/
def rename_folder_req (cfg : Config) (folder name : String) (login key : Option String) : HttpReq :=
  { method := "GET"
    url := request_url BASE_URL none (some "/file/renamefolder")
    params := [("login", credVal login cfg.login), ("key", credVal key cfg.key),
               ("folder", .str folder), ("name", .str name)]
    files := [] }

/-- Response run of `rename_folder` (pass-through). -/
def rename_folder_run (resp : Except Exc Envelope) : Except Exc Value :=
  request_handle resp

/-- Request of `delete_folder`. -/
def delete_folder_req (cfg : Config) (folder : String) (login key : Option String) : HttpReq :=
  { method := "GET"
    url := request_url BASE_URL none (some "/file/deletefolder")
    params := [("login", credVal login cfg.login), ("key", credVal key cfg.key),
               ("folder", .str folder)]
    files := [] }

/-- Response run of `delete_folder` (pass-through). -/
def delete_folder_run (resp : Except Exc Envelope) : Except Exc Value :=
  request_handle resp

/-- Request of `rename_file`. -/
def rename_file_req (cfg : Config) (file name : String) (login key : Option String) : HttpReq :=
  { method := "GET"
    url := request_url BASE_URL none (some "/file/rename")
    params := [("login", credVal login cfg.login), ("key", credVal key cfg.key),
               ("file", .str file), ("name", .str name)]
    files := [] }

/-- Response run of `rename_file` (pass-through). -/
def rename_file_run (resp : Except Exc Envelope) : Except Exc Value :=
  request_handle resp

/-- Request of `move_file`. -/
def move_file_req (cfg : Config) (file folder : String) (login key : Option String) : HttpReq :=
  { method := "GET"
    url := request_url BASE_URL none (some "/file/move")
    params := [("login", credVal login cfg.login), ("key", credVal key cfg.key),
               ("file", .str file), ("folder", .str folder)]
    files := [] }

/-- Response run of `move_file` (pass-through). -/
def move_file_run (resp : Except Exc Envelope) : Except Exc Value :=
  request_handle resp

/-- Request of `delete_file`. -/
def delete_file_req (cfg : Config) (file : String) (login key : Option String) : HttpReq :=
  { method := "GET"
    url := request_url BASE_URL none (some "/file/delete")
    params := [("login", credVal login cfg.login), ("key", credVal key cfg.key),
               ("file", .str file)]
    files := [] }

/-- Response run of `delete_file` (pass-through). -/
def delete_file_run (resp : Except Exc Envelope) : Except Exc Value :=
  request_handle resp

/-- Request of `get_running_converts`. -/
def get_running_converts_req (cfg : Config) (login key : Option String) : HttpReq :=
  { method := "GET"
    url := request_url BASE_URL none (some "/file/runningconverts")
    params := [("login", credVal login cfg.login), ("key", credVal key cfg.key)]
    files := [] }

/-- Response run of `get_running_converts` (pass-through). -/
def get_running_converts_run (resp : Except Exc Envelope) : Except Exc Value :=
  request_handle resp

/-- Request of `get_failed_converts`. -/
def get_failed_converts_req (cfg : Config) (login key : Option String) : HttpReq :=
  { method := "GET"
    url := request_url BASE_URL none (some "/file/failedconverts")
    params := [("login", credVal login cfg.login), ("key", credVal key cfg.key)]
    files := [] }

/-- Response run of `get_failed_converts` (pass-through). -/
def get_failed_converts_run (resp : Except Exc Envelope) : Except Exc Value :=
  request_handle resp

/-- Request of `get_thumbnail_image`. -/
def get_thumbnail_image_req (cfg : Config) (file : String) (login key : Option String) : HttpReq :=
  { method := "GET"
    url := request_url BASE_URL none (some "/file/getsplash")
    params := [("login", credVal login cfg.login), ("key", credVal key cfg.key),
               ("file", .str file)]
    files := [] }

/-- Response run of `get_thumbnail_image` (pass-through). -/
def get_thumbnail_image_run (resp : Except Exc Envelope) : Except Exc Value :=
  request_handle resp

/-! ## Upload workflow `upload_file` as an event trace

`upload_file` first hashes the local file (`_calculate_sha256`, a `with open`
block), then issues the negotiate GET through `_request`, then evaluates
`result["url"]`, opens the file again with a bare `open(file_path, "rb")`,
and issues the transfer POST through `_request`. The model runs the method
against an oracle fixing every external outcome and records the observable
events in order. -/

/-- Observable events of one `upload_file` execution: the open/close of the
hashing handle, the two network calls, and the open/close of the transfer
handle (`uploadClose` exists so that its absence is statable; the source has
no corresponding call). -/
inductive UEvent where
  | hashOpen : UEvent
  | hashClose : UEvent
  | negotiateGet : UEvent
  | uploadOpen : UEvent
  | uploadClose : UEvent
  | transferPost : UEvent
deriving DecidableEq, Repr

/-- Oracle for everything outside the client during one `upload_file` call:
whether the two `open` calls and the hash-phase reads succeed, the file
contents, and the transport outcome of each network call. -/
structure UploadWorld where
  openHashOk : Bool
  readOk : Bool
  contents : List Nat
  negResp : Except Exc Envelope
  openUploadOk : Bool
  postResp : Except Exc Envelope

/-- Run of `_calculate_sha256` against the oracle: outcome plus handle
events. The `with` block closes the handle on the normal exit and on a read
error alike; a failed `open` raises before the block is entered. -/
def calcSha256Run (cfg : Config) (w : UploadWorld) : Except Exc String × List UEvent :=
  if !w.openHashOk then
    (.error .os, [])
  else if !w.readOk then
    (.error .os, [.hashOpen, .hashClose])
  else
    (.ok (calculate_sha256 cfg.chunk_size w.contents), [.hashOpen, .hashClose])

/-- Dictionary read `result["url"]` with the Python runtime errors it can
raise (`TypeError` on a non-dict, `KeyError` on a missing key). -/
def getItem (v : Value) (k : String) : Except Exc Value :=
  match v with
  | .obj kvs =>
    match alist_get k kvs with
    | some x => .ok x
    | none => .error (.keyError k)
  | _ => .error (.typeError)

/-- Run of `upload_file` against the oracle: the final outcome and the event
trace, in source order — hash phase, negotiate GET through `_request`,
`result["url"]`, `open(file_path, "rb")`, transfer POST through `_request`.
Each failure raises and aborts the remainder. -/
def upload_file_run (cfg : Config) (w : UploadWorld) : Except Exc Value × List UEvent :=
  match calcSha256Run cfg w with
  | (.error e, tr) => (.error e, tr)
  | (.ok _, tr) =>
    let tr := tr ++ [.negotiateGet]
    match request_handle w.negResp with
    | .error e => (.error e, tr)
    | .ok result =>
      match getItem result "url" with
      | .error e => (.error e, tr)
      | .ok _ =>
        if !w.openUploadOk then
          (.error .os, tr)
        else
          (request_handle w.postResp, tr ++ [.uploadOpen, .transferPost])

/-! ## Helper lemmas -/

/-- Only `null` satisfies `isNull`. -/
lemma Value.eq_null_of_isNull {v : Value} (h : v.isNull = true) : v = .null := by
  cases v <;> simp_all [Value.isNull]

/-- Filtering keeps a non-null head. -/
lemma sentParams_cons_keep (k : String) (v : Value) (ps : List (String × Value))
    (h : v.isNull = false) : sentParams ((k, v) :: ps) = (k, v) :: sentParams ps := by
  simp [sentParams, List.filter_cons, h]

/-- Filtering drops a `null` head. -/
lemma sentParams_cons_null (k : String) (ps : List (String × Value)) :
    sentParams ((k, Value.null) :: ps) = sentParams ps := rfl

/-- Reading the key just stored. -/
lemma alist_get_cons_self (k : String) (v : Value) (ps : List (String × Value)) :
    alist_get k ((k, v) :: ps) = some v := by
  simp [alist_get]

/-- Reading another key skips the head. -/
lemma alist_get_cons_ne (k k' : String) (v : Value) (ps : List (String × Value))
    (h : k' ≠ k) : alist_get k ((k', v) :: ps) = alist_get k ps := by
  simp [alist_get, h]

/-- Reading an absent key. -/
lemma alist_get_eq_none_of_not_mem (k : String) (ps : List (String × Value))
    (h : k ∉ ps.map Prod.fst) : alist_get k ps = none := by
  induction ps with
  | nil => rfl
  | cons hd tl ih =>
    obtain ⟨k', v⟩ := hd
    simp only [List.map_cons, List.mem_cons, not_or] at h
    rw [alist_get_cons_ne _ _ _ _ (Ne.symm h.1)]
    exact ih h.2

/-- A successful read means the key is present. -/
lemma mem_of_alist_get_some (k : String) (v : Value) (ps : List (String × Value))
    (h : alist_get k ps = some v) : k ∈ ps.map Prod.fst := by
  induction ps with
  | nil => simp [alist_get] at h
  | cons hd tl ih =>
    obtain ⟨k', v'⟩ := hd
    by_cases hk : k' = k
    · subst hk; simp
    · rw [alist_get_cons_ne _ _ _ _ hk] at h
      simp [ih h]

/-- Looking up through the sent parameters skips a head with another key,
whether the transport keeps or drops it. -/
lemma alist_get_sent_cons_ne (k k' : String) (v : Value) (ps : List (String × Value))
    (h : k' ≠ k) : alist_get k (sentParams ((k', v) :: ps)) = alist_get k (sentParams ps) := by
  cases hv : v.isNull with
  | false => rw [sentParams_cons_keep _ _ _ hv, alist_get_cons_ne _ _ _ _ h]
  | true => rw [Value.eq_null_of_isNull hv, sentParams_cons_null]

/-- Looking up through the sent parameters finds a non-null head. -/
lemma alist_get_sent_cons_keep (k : String) (v : Value) (ps : List (String × Value))
    (hv : v.isNull = false) : alist_get k (sentParams ((k, v) :: ps)) = some v := by
  rw [sentParams_cons_keep _ _ _ hv, alist_get_cons_self]

/-- A key absent from the assembled parameters is absent from the sent ones. -/
lemma alist_get_sent_none_of_not_mem (k : String) (ps : List (String × Value))
    (h : k ∉ ps.map Prod.fst) : alist_get k (sentParams ps) = none := by
  induction ps with
  | nil => rfl
  | cons hd tl ih =>
    obtain ⟨k', v⟩ := hd
    simp only [List.map_cons, List.mem_cons, not_or] at h
    rw [alist_get_sent_cons_ne _ _ _ _ (Ne.symm h.1)]
    exact ih h.2

/-- Specification of `dictPop` on a present key: the popped value is the
bound one, other keys read unchanged, and (for duplicate-free keys, the
Python dict invariant) the popped key is gone. -/
lemma dictPop_of_get (k : String) (v : Value) (ps : List (String × Value))
    (h : alist_get k ps = some v) :
    ∃ ps', dictPop k ps = some (v, ps') ∧
      (∀ k', k' ≠ k → alist_get k' ps' = alist_get k' ps) ∧
      ((ps.map Prod.fst).Nodup → alist_get k ps' = none) := by
  induction ps with
  | nil => simp [alist_get] at h
  | cons hd tl ih =>
    obtain ⟨k0, v0⟩ := hd
    by_cases hk : k0 = k
    · subst hk
      rw [alist_get_cons_self] at h
      obtain rfl : v0 = v := by injection h
      refine ⟨tl, by simp [dictPop], fun k' hk' => ?_, fun hnd => ?_⟩
      · rw [alist_get_cons_ne _ _ _ _ (Ne.symm hk')]
      · simp only [List.map_cons, List.nodup_cons] at hnd
        exact alist_get_eq_none_of_not_mem _ _ hnd.1
    · rw [alist_get_cons_ne _ _ _ _ hk] at h
      obtain ⟨ps'', hpop, hoth, hnone⟩ := ih h
      refine ⟨(k0, v0) :: ps'', by simp [dictPop, hk, hpop], fun k' hk' => ?_, fun hnd => ?_⟩
      · by_cases hkk : k0 = k'
        · subst hkk; rw [alist_get_cons_self, alist_get_cons_self]
        · rw [alist_get_cons_ne _ _ _ _ hkk, alist_get_cons_ne _ _ _ _ hkk]
          exact hoth k' hk'
      · simp only [List.map_cons, List.nodup_cons] at hnd
        rw [alist_get_cons_ne _ _ _ _ hk]
        exact hnone hnd.2

/-- Reading the key just written by `dictSet`. -/
lemma alist_get_dictSet_self (k : String) (v : Value) (ps : List (String × Value)) :
    alist_get k (dictSet k v ps) = some v := by
  induction ps with
  | nil => simp [dictSet, alist_get]
  | cons hd tl ih =>
    obtain ⟨k0, v0⟩ := hd
    by_cases hk : k0 = k
    · subst hk; simp [dictSet, alist_get]
    · simp [dictSet, hk, alist_get, ih]

/-- `dictSet` leaves other keys unchanged. -/
lemma alist_get_dictSet_ne (k k' : String) (v : Value) (ps : List (String × Value))
    (h : k ≠ k') : alist_get k' (dictSet k v ps) = alist_get k' ps := by
  induction ps with
  | nil => simp [dictSet, alist_get, h]
  | cons hd tl ih =>
    obtain ⟨k0, v0⟩ := hd
    by_cases hk : k0 = k
    · simp only [dictSet]
      rw [if_pos hk, alist_get_cons_ne k' k v tl h, alist_get_cons_ne k' k0 v0 tl (hk ▸ h)]
    · simp only [dictSet, if_neg hk]
      by_cases hkk : k0 = k'
      · subst hkk; rw [alist_get_cons_self, alist_get_cons_self]
      · rw [alist_get_cons_ne _ _ _ _ hkk, alist_get_cons_ne _ _ _ _ hkk, ih]

/-- Left fold of concatenation is the concatenation of the flattening. -/
lemma foldl_append_eq (acc : List Nat) (ls : List (List Nat)) :
    ls.foldl (· ++ ·) acc = acc ++ ls.flatten := by
  induction ls generalizing acc with
  | nil => simp
  | cons a tl ih => simp [List.foldl_cons, ih, List.append_assoc]

/-- With positive chunk size and enough fuel, the read loop splits the
contents exactly: flattening the chunks restores the contents. -/
lemma readLoop_join (c : Nat) (hc : 1 ≤ c) :
    ∀ (fuel : Nat) (bs : List Nat), bs.length < fuel → (readLoop c fuel bs).flatten = bs := by
  intro fuel
  induction fuel with
  | zero => intro bs h; omega
  | succ f ih =>
    intro bs h
    cases bs with
    | nil => simp [readLoop]
    | cons b rest =>
      obtain ⟨c', rfl⟩ : ∃ c', c = c' + 1 := ⟨c - 1, by omega⟩
      have hne : (List.take (c' + 1) (b :: rest)).isEmpty = false := by
        simp [List.take_cons, List.isEmpty]
      simp only [readLoop, hne, Bool.false_eq_true, if_false, List.flatten_cons]
      rw [ih _ (by simp only [List.length_drop]; simp at h ⊢; omega)]
      exact List.take_append_drop _ _

/-- Every exit of the upload workflow produces one of four traces: hash-open
failure, hash-read failure, abort after the negotiate call, or the complete
run. -/
lemma upload_trace_cases (cfg : Config) (w : UploadWorld) :
    (upload_file_run cfg w).2 = [] ∨
    (upload_file_run cfg w).2 = [.hashOpen, .hashClose] ∨
    (upload_file_run cfg w).2 = [.hashOpen, .hashClose, .negotiateGet] ∨
    (upload_file_run cfg w).2 =
      [.hashOpen, .hashClose, .negotiateGet, .uploadOpen, .transferPost] := by
  cases hOpen : w.openHashOk with
  | false => left; simp [upload_file_run, calcSha256Run, hOpen]
  | true =>
    cases hRead : w.readOk with
    | false => right; left; simp [upload_file_run, calcSha256Run, hOpen, hRead]
    | true =>
      cases hNeg : request_handle w.negResp with
      | error e =>
        right; right; left
        simp [upload_file_run, calcSha256Run, hOpen, hRead, hNeg]
      | ok result =>
        cases hget : getItem result "url" with
        | error e =>
          right; right; left
          simp [upload_file_run, calcSha256Run, hOpen, hRead, hNeg, hget]
        | ok u =>
          cases hOU : w.openUploadOk with
          | false =>
            right; right; left
            simp [upload_file_run, calcSha256Run, hOpen, hRead, hNeg, hget, hOU]
          | true =>
            right; right; right
            simp [upload_file_run, calcSha256Run, hOpen, hRead, hNeg, hget, hOU]

/-! ## Credential precedence -/

/-- A non-empty explicit credential wins over any default. -/
lemma credVal_explicit (d : Option String) (s : String) (hs : s ≠ "") :
    credVal (some s) d = .str s := by
  simp [credVal, pyOrStr, hs]

/-- A falsy explicit credential (`None` or `""`) falls back to a configured
default, which is sent verbatim. -/
lemma credVal_falsy_some (l d : Option String) (t : String)
    (hl : l = none ∨ l = some "") (hd : d = some t) : credVal l d = .str t := by
  subst hd
  rcases hl with rfl | rfl <;> simp [credVal, pyOrStr]

/-- A falsy explicit credential with no configured default yields `None`. -/
lemma credVal_falsy_none (l d : Option String)
    (hl : l = none ∨ l = some "") (hd : d = none) : credVal l d = .null := by
  subst hd
  rcases hl with rfl | rfl <;> simp [credVal, pyOrStr]

/-- Credential behavior of one request builder, as a function of the explicit
arguments and the configured defaults, observed on the parameters actually
sent: a non-empty explicit value wins; a falsy explicit value (`None` or the
empty string, both falsy to Python `or`) falls back to the configured
default, which is sent verbatim; and when the fallback applies with no
configured default, no credential parameter is sent at all. -/
def credsOk (build : Config → Option String → Option String → HttpReq) : Prop :=
  ∀ (cfg : Config) (l k : Option String),
    (∀ s, l = some s → s ≠ "" → sentLookup (build cfg l k) "login" = some (.str s)) ∧
    (∀ t, (l = none ∨ l = some "") → cfg.login = some t →
      sentLookup (build cfg l k) "login" = some (.str t)) ∧
    ((l = none ∨ l = some "") → cfg.login = none →
      sentLookup (build cfg l k) "login" = none) ∧
    (∀ s, k = some s → s ≠ "" → sentLookup (build cfg l k) "key" = some (.str s)) ∧
    (∀ t, (k = none ∨ k = some "") → cfg.key = some t →
      sentLookup (build cfg l k) "key" = some (.str t)) ∧
    ((k = none ∨ k = some "") → cfg.key = none →
      sentLookup (build cfg l k) "key" = none)

/-- Every builder whose parameter dictionary starts with the
`login or self.login` / `key or self.key` entries, and whose remaining
parameters use neither name, has the credential behavior of `credsOk`. -/
lemma credsOk_of_shape (build : Config → Option String → Option String → HttpReq)
    (rest : Config → Option String → Option String → List (String × Value))
    (hshape : ∀ cfg l k, (build cfg l k).params =
      ("login", credVal l cfg.login) :: ("key", credVal k cfg.key) :: rest cfg l k)
    (hlogin : ∀ cfg l k, "login" ∉ (rest cfg l k).map Prod.fst)
    (hkey : ∀ cfg l k, "key" ∉ (rest cfg l k).map Prod.fst) :
    credsOk build := by
  intro cfg l k
  have hl0 : ∀ ps, alist_get "login" (sentParams (("key", credVal k cfg.key) :: ps)) =
      alist_get "login" (sentParams ps) :=
    fun ps => alist_get_sent_cons_ne _ _ _ _ (by decide)
  refine ⟨?_, ?_, ?_, ?_, ?_, ?_⟩
  · intro s hls hs
    subst hls
    simp only [sentLookup, hshape, credVal_explicit _ _ hs]
    exact alist_get_sent_cons_keep _ _ _ rfl
  · intro t hl hd
    simp only [sentLookup, hshape, credVal_falsy_some _ _ _ hl hd]
    exact alist_get_sent_cons_keep _ _ _ rfl
  · intro hl hd
    simp only [sentLookup, hshape, credVal_falsy_none _ _ hl hd]
    rw [sentParams_cons_null, hl0]
    exact alist_get_sent_none_of_not_mem _ _ (hlogin cfg l k)
  · intro s hks hs
    subst hks
    simp only [sentLookup, hshape, credVal_explicit _ _ hs]
    rw [alist_get_sent_cons_ne _ _ _ _ (by decide)]
    exact alist_get_sent_cons_keep _ _ _ rfl
  · intro t hk hd
    simp only [sentLookup, hshape, credVal_falsy_some _ _ _ hk hd]
    rw [alist_get_sent_cons_ne _ _ _ _ (by decide)]
    exact alist_get_sent_cons_keep _ _ _ rfl
  · intro hk hd
    simp only [sentLookup, hshape, credVal_falsy_none _ _ hk hd]
    rw [alist_get_sent_cons_ne _ _ _ _ (by decide), sentParams_cons_null]
    exact alist_get_sent_none_of_not_mem _ _ (hkey cfg l k)

/-! ## Concrete fixtures for witnesses and counterexamples -/

/-- Client constructed with no default credentials and the class defaults. -/
def cfg0 : Config := ⟨none, none, DATETIME_FORMAT, CHUNK_SIZE⟩

/-- Client constructed with default credentials `"D"` and `"K"`. -/
def cfgD : Config := ⟨some "D", some "K", DATETIME_FORMAT, CHUNK_SIZE⟩

/-- Ten known bytes, spanning several chunks of size four. -/
def demoBytes : List Nat := [97, 98, 99, 100, 101, 102, 103, 104, 105, 106]

/-- Upload oracle whose hash-phase `open` fails. -/
def wHashFail : UploadWorld :=
  ⟨false, true, [97], .ok ⟨200, "ok", .obj [("url", .str "https://upload.example")]⟩,
   true, .ok ⟨200, "ok", .null⟩⟩

/-- Upload oracle whose negotiate call returns a failure envelope. -/
def wNegFail : UploadWorld :=
  ⟨true, true, [97], .ok ⟨404, "nf", .null⟩, true, .ok ⟨200, "ok", .null⟩⟩

/-- Upload oracle for a fully successful run. -/
def wAllOk : UploadWorld :=
  ⟨true, true, [97], .ok ⟨200, "ok", .obj [("url", .str "https://upload.example")]⟩,
   true, .ok ⟨200, "ok", .str "done"⟩⟩

/-- Sanity check of the SHA-256 model against the FIPS 180-4 test vector for
the three-byte message `"abc"`. -/
lemma sha256_test_vector_abc :
    sha256_hex [97, 98, 99] =
      "ba7816bf8f01cfea414140de5dae2223b00361a396177a9cb410ff61f20015ad" := by
  decide

/-! ## Claims -/

/-- C1: for every decoded response envelope `{status, msg, result}`, the
request primitive returns exactly the envelope's `result` and raises no
domain error when `status` lies in `[200, 300)`; when `status` lies outside
`[200, 300)` it raises `StreamtapeError` carrying exactly that `status` and
`msg`, and so does every endpoint method on that envelope, uniformly, since
each routes its response through the same primitive. -/
theorem claim1_envelope_uniform (env : Envelope) :
    (200 ≤ env.status ∧ env.status < 300 →
      request_handle (.ok env) = .ok env.result) ∧
    (¬(200 ≤ env.status ∧ env.status < 300) →
      request_handle (.ok env) = .error (.domain env.status env.msg) ∧
      (∀ cfg, get_account_info_run cfg (.ok env) = .error (.domain env.status env.msg)) ∧
      get_download_ticket_run (.ok env) = .error (.domain env.status env.msg) ∧
      get_download_link_run (.ok env) = .error (.domain env.status env.msg) ∧
      get_file_info_run (.ok env) = .error (.domain env.status env.msg) ∧
      remote_upload_run (.ok env) = .error (.domain env.status env.msg) ∧
      remove_remote_upload_run (.ok env) = .error (.domain env.status env.msg) ∧
      (∀ cfg, get_remote_upload_status_run cfg (.ok env) =
        .error (.domain env.status env.msg)) ∧
      get_files_and_folders_run (.ok env) = .error (.domain env.status env.msg) ∧
      create_folder_run (.ok env) = .error (.domain env.status env.msg) ∧
      rename_folder_run (.ok env) = .error (.domain env.status env.msg) ∧
      delete_folder_run (.ok env) = .error (.domain env.status env.msg) ∧
      rename_file_run (.ok env) = .error (.domain env.status env.msg) ∧
      move_file_run (.ok env) = .error (.domain env.status env.msg) ∧
      delete_file_run (.ok env) = .error (.domain env.status env.msg) ∧
      get_running_converts_run (.ok env) = .error (.domain env.status env.msg) ∧
      get_failed_converts_run (.ok env) = .error (.domain env.status env.msg) ∧
      get_thumbnail_image_run (.ok env) = .error (.domain env.status env.msg) ∧
      (∀ cfg w, w.openHashOk = true → w.readOk = true →
        w.negResp = Except.ok env →
        (upload_file_run cfg w).1 = .error (.domain env.status env.msg))) := by
  constructor
  · intro h
    simp [request_handle, h]
  · intro h
    have hreq : request_handle (Except.ok env) = .error (.domain env.status env.msg) := by
      simp [request_handle, h]
    refine ⟨hreq, ?_, hreq, hreq, hreq, hreq, hreq, ?_, hreq, hreq, hreq, hreq,
      hreq, hreq, hreq, hreq, hreq, hreq, ?_⟩
    · intro cfg
      simp [get_account_info_run, hreq, Except.bind]
    · intro cfg
      simp [get_remote_upload_status_run, hreq, Except.bind]
    · intro cfg w h1 h2 h3
      simp [upload_file_run, calcSha256Run, h1, h2, h3, hreq]

/-- Witness for C1 at concrete envelopes: a `204` success returns the result,
a `404` failure yields the domain error from the thumbnail endpoint and from
the upload workflow's negotiate phase alike. -/
theorem claim1_envelope_uniform_witness :
    request_handle (.ok ⟨204, "ok", .str "r"⟩) = .ok (.str "r") ∧
    request_handle (.ok ⟨404, "File not found", .null⟩) =
      .error (.domain 404 "File not found") ∧
    get_thumbnail_image_run (.ok ⟨404, "File not found", .null⟩) =
      .error (.domain 404 "File not found") ∧
    (upload_file_run cfg0 wNegFail).1 = .error (.domain 404 "nf") := by
  have h404 := (claim1_envelope_uniform ⟨404, "File not found", .null⟩).2 (by decide)
  obtain ⟨ha, -, -, -, -, -, -, -, -, -, -, -, -, -, -, -, -, hthumb, -⟩ := h404
  have hup := ((claim1_envelope_uniform ⟨404, "nf", .null⟩).2 (by decide)).2.2.2.2.2.2.2.2.2.2.2.2.2.2.2.2.2.2
  exact ⟨(claim1_envelope_uniform ⟨204, "ok", .str "r"⟩).1 (by decide), ha, hthumb,
    hup cfg0 wNegFail rfl rfl rfl⟩

/-- C3: for every byte sequence and any two positive chunk sizes, the hash
phase of the upload workflow produces the same SHA-256 hex digest, and that
digest is the SHA-256 hex digest of the whole contents hashed at once. -/
theorem claim3_hash_chunk_invariance (c1 c2 : Nat) (bs : List Nat)
    (h1 : 1 ≤ c1) (h2 : 1 ≤ c2) :
    calculate_sha256 c1 bs = calculate_sha256 c2 bs ∧
    calculate_sha256 c1 bs = sha256_hex bs := by
  have key : ∀ c, 1 ≤ c → calculate_sha256 c bs = sha256_hex bs := by
    intro c hc
    unfold calculate_sha256
    rw [foldl_append_eq, List.nil_append,
      readLoop_join c hc (bs.length + 1) bs (Nat.lt_succ_self _)]
  exact ⟨by rw [key c1 h1, key c2 h2], key c1 h1⟩

/-- Witness for C3: chunk sizes 4 and 4096 over the fixed ten-byte sequence
yield identical digests, equal to the digest of the whole sequence. -/
theorem claim3_hash_chunk_invariance_witness :
    calculate_sha256 4 demoBytes = calculate_sha256 4096 demoBytes ∧
    calculate_sha256 4 demoBytes = sha256_hex demoBytes :=
  claim3_hash_chunk_invariance 4 4096 demoBytes (by decide) (by decide)

/-- C4: for every list of file identifiers, the file-info request carries one
single `file` parameter (the parameter names are exactly `login`, `key`,
`file`, with no repetition) whose sent value is the comma-join of the
identifiers; in particular `["a", "b", "c"]` yields `"a,b,c"`. -/
theorem claim4_file_info_comma_join (cfg : Config) (file : List String)
    (l k : Option String) :
    sentLookup (get_file_info_req cfg file l k) "file" =
      some (.str (String.intercalate "," file)) ∧
    (get_file_info_req cfg file l k).params.map Prod.fst = ["login", "key", "file"] ∧
    sentLookup (get_file_info_req cfg0 ["a", "b", "c"] none none) "file" =
      some (.str "a,b,c") := by
  refine ⟨?_, rfl, rfl⟩
  simp only [sentLookup, get_file_info_req]
  rw [alist_get_sent_cons_ne _ _ _ _ (by decide), alist_get_sent_cons_ne _ _ _ _ (by decide)]
  exact alist_get_sent_cons_keep _ _ _ rfl

/-- C10: for the empty identifier list, the file-info operation still sends a
`file` parameter: its value is the empty string (the comma-join of zero
identifiers), and `file` is among the sent parameter names rather than
absent. -/
theorem claim10_file_info_empty_list (cfg : Config) (l k : Option String) :
    sentLookup (get_file_info_req cfg [] l k) "file" = some (.str "") ∧
    "file" ∈ (sentParams (get_file_info_req cfg [] l k).params).map Prod.fst := by
  have h : sentLookup (get_file_info_req cfg [] l k) "file" = some (.str "") := by
    simp only [sentLookup, get_file_info_req]
    rw [alist_get_sent_cons_ne _ _ _ _ (by decide),
      alist_get_sent_cons_ne _ _ _ _ (by decide)]
    exact alist_get_sent_cons_keep _ _ _ rfl
  exact ⟨h, mem_of_alist_get_some _ _ _ h⟩

/-- C6: the request primitive concatenates base URL and endpoint verbatim
(no separator inserted or removed, no normalization) — likewise a negotiated
base URL passes through verbatim — and every endpoint method's target URL is
the base URL followed by the exact literal path of the spec's endpoint
table. -/
theorem claim6_endpoint_urls :
    (∀ e, e ≠ "" → request_url BASE_URL none (some e) = BASE_URL ++ e) ∧
    (∀ u, u ≠ "" → request_url BASE_URL (some u) none = u) ∧
    (∀ cfg l k, (get_account_info_req cfg l k).url =
      "https://api.streamtape.com/account/info") ∧
    (∀ cfg file l k, (get_download_ticket_req cfg file l k).url =
      "https://api.streamtape.com/file/dlticket") ∧
    (∀ file ticket, (get_download_link_req file ticket).url =
      "https://api.streamtape.com/file/dl") ∧
    (∀ cfg file l k, (get_file_info_req cfg file l k).url =
      "https://api.streamtape.com/file/info") ∧
    (∀ cfg folder httponly l k digest,
      (upload_file_negotiate_req cfg folder httponly l k digest).url =
        "https://api.streamtape.com/file/ul") ∧
    (∀ u fp, u ≠ "" → (upload_file_transfer_req u fp).url = u ∧
      (upload_file_transfer_req u fp).method = "POST") ∧
    (∀ cfg url folder headers name l k,
      (remote_upload_req cfg url folder headers name l k).url =
        "https://api.streamtape.com/remotedl") ∧
    (∀ cfg uid l k, (remove_remote_upload_req cfg uid l k).url =
      "https://api.streamtape.com/file/info") ∧
    (∀ cfg uid l k, (get_remote_upload_status_req cfg uid l k).url =
      "https://api.streamtape.com/remotedl/status") ∧
    (∀ cfg folder l k, (get_files_and_folders_req cfg folder l k).url =
      "https://api.streamtape.com/file/listfolder") ∧
    (∀ cfg name pf l k, (create_folder_req cfg name pf l k).url =
      "https://api.streamtape.com/file/createfolder") ∧
    (∀ cfg folder name l k, (rename_folder_req cfg folder name l k).url =
      "https://api.streamtape.com/file/renamefolder") ∧
    (∀ cfg folder l k, (delete_folder_req cfg folder l k).url =
      "https://api.streamtape.com/file/deletefolder") ∧
    (∀ cfg file name l k, (rename_file_req cfg file name l k).url =
      "https://api.streamtape.com/file/rename") ∧
    (∀ cfg file folder l k, (move_file_req cfg file folder l k).url =
      "https://api.streamtape.com/file/move") ∧
    (∀ cfg file l k, (delete_file_req cfg file l k).url =
      "https://api.streamtape.com/file/delete") ∧
    (∀ cfg l k, (get_running_converts_req cfg l k).url =
      "https://api.streamtape.com/file/runningconverts") ∧
    (∀ cfg l k, (get_failed_converts_req cfg l k).url =
      "https://api.streamtape.com/file/failedconverts") ∧
    (∀ cfg file l k, (get_thumbnail_image_req cfg file l k).url =
      "https://api.streamtape.com/file/getsplash") := by
  refine ⟨?_, ?_, fun _ _ _ => rfl, fun _ _ _ _ => rfl, fun _ _ => rfl,
    fun _ _ _ _ => rfl, fun _ _ _ _ _ _ => rfl, ?_, fun _ _ _ _ _ _ _ => rfl,
    fun _ _ _ _ => rfl, fun _ _ _ _ => rfl, fun _ _ _ _ => rfl,
    fun _ _ _ _ _ => rfl, fun _ _ _ _ _ => rfl, fun _ _ _ _ => rfl,
    fun _ _ _ _ _ => rfl, fun _ _ _ _ _ => rfl, fun _ _ _ _ => rfl,
    fun _ _ _ => rfl, fun _ _ _ => rfl, fun _ _ _ _ => rfl⟩
  · intro e he
    simp [request_url, he]
  · intro u hu
    simp [request_url, hu]
  · intro u fp hu
    exact ⟨by simp [upload_file_transfer_req, request_url, hu], rfl⟩

/-- Witness for C6 at concrete strings: appending `/account/info` to the
base, and passing a negotiated upload URL through verbatim. -/
theorem claim6_endpoint_urls_witness :
    request_url BASE_URL none (some "/account/info") = BASE_URL ++ "/account/info" ∧
    request_url BASE_URL (some "https://upload.example") none = "https://upload.example" :=
  ⟨claim6_endpoint_urls.1 "/account/info" (by decide),
   claim6_endpoint_urls.2.1 "https://upload.example" (by decide)⟩

/-- C7: the remove-remote-upload operation issues a GET to `/file/info`
(exactly as the spec's endpoint table records for remote upload cancel),
sends the upload identifier as the `id` parameter alongside the credential
parameters, and returns the envelope's result as-is (its response handling is
the bare request primitive). -/
theorem claim7_remove_remote_upload (cfg : Config) (upload_id : String)
    (l k : Option String) :
    (remove_remote_upload_req cfg upload_id l k).method = "GET" ∧
    (remove_remote_upload_req cfg upload_id l k).url =
      "https://api.streamtape.com/file/info" ∧
    sentLookup (remove_remote_upload_req cfg upload_id l k) "id" =
      some (.str upload_id) ∧
    (remove_remote_upload_req cfg upload_id l k).params =
      [("login", credVal l cfg.login), ("key", credVal k cfg.key),
       ("id", .str upload_id)] ∧
    (∀ resp, remove_remote_upload_run resp = request_handle resp) := by
  refine ⟨rfl, rfl, ?_, rfl, fun resp => rfl⟩
  simp only [sentLookup, remove_remote_upload_req]
  rw [alist_get_sent_cons_ne _ _ _ _ (by decide), alist_get_sent_cons_ne _ _ _ _ (by decide)]
  exact alist_get_sent_cons_keep _ _ _ rfl

/-- Counterexample to C2 as stated: calling account-info with the explicitly
passed login `""` against configured default `"D"` puts `"D"`, not the
explicitly passed value, into the outgoing parameters — Python `or` treats
the empty string as falsy. -/
theorem claim2_counterexample_empty_explicit :
    sentLookup (get_account_info_req cfgD (some "") none) "login" = some (.str "D") ∧
    Value.str "D" ≠ Value.str "" := by
  refine ⟨rfl, fun h => ?_⟩
  injection h with h'
  exact absurd h' (by decide)

/-- C2 (amended): for every credentialed endpoint method, an explicitly
passed non-empty login/key is the value sent even when the configured
defaults differ; an explicitly passed empty string is falsy to Python `or`
and behaves as if omitted; an omitted (or empty) argument falls back to the
configured default, sent verbatim; and when the fallback applies with no
configured default, no login/key parameter is sent (the transport dropping
absent parameters per the spec's contract). -/
theorem claim2_amended_credential_precedence :
    credsOk get_account_info_req ∧
    (∀ file, credsOk (fun cfg l k => get_download_ticket_req cfg file l k)) ∧
    (∀ file, credsOk (fun cfg l k => get_file_info_req cfg file l k)) ∧
    (∀ folder httponly digest,
      credsOk (fun cfg l k => upload_file_negotiate_req cfg folder httponly l k digest)) ∧
    (∀ url folder headers name,
      credsOk (fun cfg l k => remote_upload_req cfg url folder headers name l k)) ∧
    (∀ uid, credsOk (fun cfg l k => remove_remote_upload_req cfg uid l k)) ∧
    (∀ uid, credsOk (fun cfg l k => get_remote_upload_status_req cfg uid l k)) ∧
    (∀ folder, credsOk (fun cfg l k => get_files_and_folders_req cfg folder l k)) ∧
    (∀ name pf, credsOk (fun cfg l k => create_folder_req cfg name pf l k)) ∧
    (∀ folder name, credsOk (fun cfg l k => rename_folder_req cfg folder name l k)) ∧
    (∀ folder, credsOk (fun cfg l k => delete_folder_req cfg folder l k)) ∧
    (∀ file name, credsOk (fun cfg l k => rename_file_req cfg file name l k)) ∧
    (∀ file folder, credsOk (fun cfg l k => move_file_req cfg file folder l k)) ∧
    (∀ file, credsOk (fun cfg l k => delete_file_req cfg file l k)) ∧
    credsOk get_running_converts_req ∧
    credsOk get_failed_converts_req ∧
    (∀ file, credsOk (fun cfg l k => get_thumbnail_image_req cfg file l k)) := by
  refine ⟨?_, fun file => ?_, fun file => ?_, fun folder httponly digest => ?_,
    fun url folder headers name => ?_, fun uid => ?_, fun uid => ?_, fun folder => ?_,
    fun name pf => ?_, fun folder name => ?_, fun folder => ?_, fun file name => ?_,
    fun file folder => ?_, fun file => ?_, ?_, ?_, fun file => ?_⟩
  · exact credsOk_of_shape _ (fun _ _ _ => []) (fun _ _ _ => rfl)
      (fun _ _ _ => by simp) (fun _ _ _ => by simp)
  · exact credsOk_of_shape _ (fun _ _ _ => [("file", .str file)]) (fun _ _ _ => rfl)
      (fun _ _ _ => by simp) (fun _ _ _ => by simp)
  · exact credsOk_of_shape _
      (fun _ _ _ => [("file", .str (String.intercalate "," file))]) (fun _ _ _ => rfl)
      (fun _ _ _ => by simp) (fun _ _ _ => by simp)
  · exact credsOk_of_shape _
      (fun _ _ _ => [("folder", optStr folder), ("sha256", .str digest),
        ("httponly", optBool httponly)]) (fun _ _ _ => rfl)
      (fun _ _ _ => by simp) (fun _ _ _ => by simp)
  · exact credsOk_of_shape _
      (fun _ _ _ => [("url", .str url), ("folder", optStr folder),
        ("headers", headers.getD .null), ("name", optStr name)]) (fun _ _ _ => rfl)
      (fun _ _ _ => by simp) (fun _ _ _ => by simp)
  · exact credsOk_of_shape _ (fun _ _ _ => [("id", .str uid)]) (fun _ _ _ => rfl)
      (fun _ _ _ => by simp) (fun _ _ _ => by simp)
  · exact credsOk_of_shape _ (fun _ _ _ => [("id", .str uid)]) (fun _ _ _ => rfl)
      (fun _ _ _ => by simp) (fun _ _ _ => by simp)
  · exact credsOk_of_shape _ (fun _ _ _ => [("folder", optStr folder)]) (fun _ _ _ => rfl)
      (fun _ _ _ => by simp) (fun _ _ _ => by simp)
  · exact credsOk_of_shape _ (fun _ _ _ => [("name", .str name), ("pid", optStr pf)])
      (fun _ _ _ => rfl) (fun _ _ _ => by simp) (fun _ _ _ => by simp)
  · exact credsOk_of_shape _
      (fun _ _ _ => [("folder", .str folder), ("name", .str name)]) (fun _ _ _ => rfl)
      (fun _ _ _ => by simp) (fun _ _ _ => by simp)
  · exact credsOk_of_shape _ (fun _ _ _ => [("folder", .str folder)]) (fun _ _ _ => rfl)
      (fun _ _ _ => by simp) (fun _ _ _ => by simp)
  · exact credsOk_of_shape _
      (fun _ _ _ => [("file", .str file), ("name", .str name)]) (fun _ _ _ => rfl)
      (fun _ _ _ => by simp) (fun _ _ _ => by simp)
  · exact credsOk_of_shape _
      (fun _ _ _ => [("file", .str file), ("folder", .str folder)]) (fun _ _ _ => rfl)
      (fun _ _ _ => by simp) (fun _ _ _ => by simp)
  · exact credsOk_of_shape _ (fun _ _ _ => [("file", .str file)]) (fun _ _ _ => rfl)
      (fun _ _ _ => by simp) (fun _ _ _ => by simp)
  · exact credsOk_of_shape _ (fun _ _ _ => []) (fun _ _ _ => rfl)
      (fun _ _ _ => by simp) (fun _ _ _ => by simp)
  · exact credsOk_of_shape _ (fun _ _ _ => []) (fun _ _ _ => rfl)
      (fun _ _ _ => by simp) (fun _ _ _ => by simp)
  · exact credsOk_of_shape _ (fun _ _ _ => [("file", .str file)]) (fun _ _ _ => rfl)
      (fun _ _ _ => by simp) (fun _ _ _ => by simp)

/-- Witness for C2 (amended) on account-info at concrete credentials: a
non-empty explicit login overrides the default `"D"`, an omitted login falls
back to `"D"`, and with neither an argument nor a default no login parameter
is sent. -/
theorem claim2_amended_credential_precedence_witness :
    sentLookup (get_account_info_req cfgD (some "L") (some "K2")) "login" =
      some (.str "L") ∧
    sentLookup (get_account_info_req cfgD none none) "login" = some (.str "D") ∧
    sentLookup (get_account_info_req cfg0 none none) "login" = none :=
  ⟨(claim2_amended_credential_precedence.1 cfgD (some "L") (some "K2")).1 "L" rfl
      (by decide),
   (claim2_amended_credential_precedence.1 cfgD none none).2.1 "D" (Or.inl rfl) rfl,
   (claim2_amended_credential_precedence.1 cfg0 none none).2.2.1 (Or.inl rfl) rfl⟩

/-- C5: on a successful account-info envelope whose result holds an `apiid`
key and a `signup_at` string parsing under the configured format, the method
returns the result with `apiid` renamed to `api_id` (value unchanged, old key
gone) and `signup_at` replaced by the parsed timestamp. -/
theorem claim5_account_info_transform (cfg : Config) (env : Envelope)
    (kvs : List (String × Value)) (v : Value) (s : String) (d : DateTime)
    (hst : 200 ≤ env.status ∧ env.status < 300)
    (hres : env.result = .obj kvs)
    (hnd : (kvs.map Prod.fst).Nodup)
    (hapi : alist_get "apiid" kvs = some v)
    (hsg : alist_get "signup_at" kvs = some (.str s))
    (hfmt : strptime cfg.datetime_format s = some d) :
    ∃ kvs', get_account_info_run cfg (.ok env) = .ok (.obj kvs') ∧
      alist_get "api_id" kvs' = some v ∧
      alist_get "apiid" kvs' = none ∧
      alist_get "signup_at" kvs' = some (.dt d) := by
  obtain ⟨ps', hpop, hoth, hnone⟩ := dictPop_of_get _ _ _ hapi
  have hrun : get_account_info_run cfg (.ok env) = get_account_info_post cfg (.obj kvs) := by
    simp [get_account_info_run, request_handle, hst, hres, Except.bind]
  have hs2 : alist_get "signup_at" (dictSet "api_id" v ps') = some (.str s) := by
    rw [alist_get_dictSet_ne _ _ _ _ (by decide), hoth _ (by decide), hsg]
  rw [hrun]
  simp only [get_account_info_post, hpop, hs2, hfmt]
  refine ⟨_, rfl, ?_, ?_, ?_⟩
  · rw [alist_get_dictSet_ne _ _ _ _ (by decide), alist_get_dictSet_self]
  · rw [alist_get_dictSet_ne _ _ _ _ (by decide), alist_get_dictSet_ne _ _ _ _ (by decide)]
    exact hnone hnd
  · exact alist_get_dictSet_self _ _ _

/-- Witness for C5 at the spec's concrete instance: result
`{"apiid": "X1", "signup_at": "2020-01-02 03:04:05"}` under the default
format yields `api_id = "X1"`, no `apiid` key, and the timestamp
2020-01-02T03:04:05. -/
theorem claim5_account_info_transform_witness :
    ∃ kvs', get_account_info_run cfg0
        (.ok ⟨200, "ok", .obj [("apiid", .str "X1"),
          ("signup_at", .str "2020-01-02 03:04:05")]⟩) = .ok (.obj kvs') ∧
      alist_get "api_id" kvs' = some (.str "X1") ∧
      alist_get "apiid" kvs' = none ∧
      alist_get "signup_at" kvs' = some (.dt ⟨2020, 1, 2, 3, 4, 5⟩) :=
  claim5_account_info_transform cfg0 _ _ _ "2020-01-02 03:04:05" _
    (by decide) rfl (by decide) rfl rfl (by decide)

/-- C8: the upload workflow's phases run in a fixed order with failure
aborting the remainder — a failed hash phase precludes both network calls, a
failed negotiate call precludes opening the file for transfer and the POST,
and the POST happens only after (and immediately following) a negotiate call
whose envelope succeeded. -/
theorem claim8_upload_phase_order (cfg : Config) (w : UploadWorld) :
    (∀ e, (calcSha256Run cfg w).1 = .error e →
      UEvent.negotiateGet ∉ (upload_file_run cfg w).2 ∧
      UEvent.transferPost ∉ (upload_file_run cfg w).2) ∧
    (∀ e, request_handle w.negResp = .error e →
      UEvent.uploadOpen ∉ (upload_file_run cfg w).2 ∧
      UEvent.transferPost ∉ (upload_file_run cfg w).2) ∧
    (UEvent.transferPost ∈ (upload_file_run cfg w).2 →
      (∃ env, w.negResp = Except.ok env ∧ 200 ≤ env.status ∧ env.status < 300) ∧
      (upload_file_run cfg w).2 =
        [.hashOpen, .hashClose, .negotiateGet, .uploadOpen, .transferPost]) := by
  refine ⟨?_, ?_, ?_⟩
  · intro e he
    cases hOpen : w.openHashOk with
    | false => simp [upload_file_run, calcSha256Run, hOpen]
    | true =>
      cases hRead : w.readOk with
      | false => simp [upload_file_run, calcSha256Run, hOpen, hRead]
      | true => simp [calcSha256Run, hOpen, hRead] at he
  · intro e he
    cases hOpen : w.openHashOk with
    | false => simp [upload_file_run, calcSha256Run, hOpen]
    | true =>
      cases hRead : w.readOk with
      | false => simp [upload_file_run, calcSha256Run, hOpen, hRead]
      | true => simp [upload_file_run, calcSha256Run, hOpen, hRead, he]
  · intro hmem
    cases hOpen : w.openHashOk with
    | false => simp [upload_file_run, calcSha256Run, hOpen] at hmem
    | true =>
      cases hRead : w.readOk with
      | false => simp [upload_file_run, calcSha256Run, hOpen, hRead] at hmem
      | true =>
        cases hNeg : request_handle w.negResp with
        | error e => simp [upload_file_run, calcSha256Run, hOpen, hRead, hNeg] at hmem
        | ok result =>
          cases hget : getItem result "url" with
          | error e =>
            simp [upload_file_run, calcSha256Run, hOpen, hRead, hNeg, hget] at hmem
          | ok u =>
            cases hOU : w.openUploadOk with
            | false =>
              simp [upload_file_run, calcSha256Run, hOpen, hRead, hNeg, hget, hOU] at hmem
            | true =>
              refine ⟨?_, by
                simp [upload_file_run, calcSha256Run, hOpen, hRead, hNeg, hget, hOU]⟩
              cases hresp : w.negResp with
              | error e2 => rw [hresp] at hNeg; simp [request_handle] at hNeg
              | ok env =>
                refine ⟨env, rfl, ?_⟩
                rw [hresp] at hNeg
                by_cases hc : 200 ≤ env.status ∧ env.status < 300
                · exact hc
                · simp [request_handle, hc] at hNeg

/-- Witness for C8 at three concrete runs: a failed hash open yields no
network call, a failed negotiate yields no transfer open and no POST, and a
fully successful run shows the POST exactly after a successful negotiate. -/
theorem claim8_upload_phase_order_witness :
    (UEvent.negotiateGet ∉ (upload_file_run cfg0 wHashFail).2 ∧
      UEvent.transferPost ∉ (upload_file_run cfg0 wHashFail).2) ∧
    (UEvent.uploadOpen ∉ (upload_file_run cfg0 wNegFail).2 ∧
      UEvent.transferPost ∉ (upload_file_run cfg0 wNegFail).2) ∧
    ((∃ env, wAllOk.negResp = Except.ok env ∧ 200 ≤ env.status ∧ env.status < 300) ∧
      (upload_file_run cfg0 wAllOk).2 =
        [.hashOpen, .hashClose, .negotiateGet, .uploadOpen, .transferPost]) :=
  ⟨(claim8_upload_phase_order cfg0 wHashFail).1 .os rfl,
   (claim8_upload_phase_order cfg0 wNegFail).2.1 (.domain 404 "nf") rfl,
   (claim8_upload_phase_order cfg0 wAllOk).2.2 (by decide)⟩

/-- Counterexample to C9 as stated: even on a fully successful upload run,
the handle opened to attach the file to the POST transfer is opened and
never closed — `open(file_path, "rb")` has no context manager and no
`close` on any path. -/
theorem claim9_counterexample_transfer_handle_leak :
    UEvent.uploadOpen ∈ (upload_file_run cfg0 wAllOk).2 ∧
    UEvent.uploadClose ∉ (upload_file_run cfg0 wAllOk).2 := by
  decide

/-- C9 (amended): the hashing handle, opened by a `with` block, is closed on
every exit path (closed exactly when opened); the handle opened for the POST
transfer is never closed by the library on any path. -/
theorem claim9_amended_handle_closing (cfg : Config) (w : UploadWorld) :
    (UEvent.hashOpen ∈ (upload_file_run cfg w).2 ↔
      UEvent.hashClose ∈ (upload_file_run cfg w).2) ∧
    UEvent.uploadClose ∉ (upload_file_run cfg w).2 := by
  rcases upload_trace_cases cfg w with h | h | h | h <;> rw [h] <;>
    exact ⟨by simp, by simp⟩

/-- Witness for C9 (amended) at the fully successful run: the hash handle's
close event is present, and no transfer-handle close event is. -/
theorem claim9_amended_handle_closing_witness :
    UEvent.hashClose ∈ (upload_file_run cfg0 wAllOk).2 ∧
    UEvent.uploadClose ∉ (upload_file_run cfg0 wAllOk).2 :=
  ⟨(claim9_amended_handle_closing cfg0 wAllOk).1.mp (by decide),
   (claim9_amended_handle_closing cfg0 wAllOk).2⟩

end Streamtape

